import Mathlib

/-!
Shallow embedding of the budget-planner application (src/main.py).

Monetary amounts (`Float` columns in the source) are modelled as rationals;
integer flag columns (`is_revoked`, `is_finalized`, stored as 0/1) are
modelled as `Nat`.  Database tables are modelled as lists of rows; SQLAlchemy
query combinators map to list operations: `.first()` is `List.find?`,
`.all()` with a filter is `List.filter`, inserting is appending, and an
in-place update of a fetched row is a positional rewrite of the list.

JWT encoding and decoding (python-jose `jwt.encode` / `jwt.decode`) are kept
abstract: definitions are parameterised over an `encode : Payload → String`
and a `decode : String → Option Payload` function.  `decode` returning
`none` models `JWTError` (bad signature, malformed token, or expired `exp`
claim, all of which `jwt.decode` raises as `JWTError`).
-/

namespace BudgetPlanner

/-- The `users` table row (src/main.py `class User`): id and username.
The password hash plays no role in the verified claims. -/
structure User where
  id : Nat
  username : String
  deriving Repr, DecidableEq

/-- The claim set carried by a JWT.  `jwt.decode` returns a dict; the code
reads keys "sub", "user_id" and "type" with `.get`, which yields `None`
for a missing key — hence `Option` for `sub` and `user_id`.  The "type"
key is always compared with `==`, so a missing key (compared as `None`)
is modelled by any string different from "access"/"refresh". -/
structure Payload where
  sub : Option String
  user_id : Option Nat
  typ : String
  deriving Repr, DecidableEq

/-- The `refresh_tokens` table row (src/main.py `class RefreshToken`).
`expires_at`/`created_at` are not read by any verified claim (expiry is
checked cryptographically inside `jwt.decode`, which the abstract
`decode` models), so they are omitted.  The `token` column carries a
`unique=True` constraint. -/
structure RefreshTokenRow where
  user_id : Nat
  token : String
  is_revoked : Nat
  deriving Repr, DecidableEq

/-- A `response.set_cookie(key, value)` call recorded on the outgoing
response (src/main.py login handler lines 365-384). -/
structure SetCookie where
  key : String
  value : String
  deriving Repr, DecidableEq

/-- src/main.py `verify_refresh_token` (lines 214-234): decode with the
refresh secret (a `JWTError` returns `None`), require `type == "refresh"`,
require a ledger row with this token string and `is_revoked == 0`, then
resolve the user by the embedded `user_id` (`first()` of a filter, which
is `None` when the user does not exist, and the function returns that
value as-is). -/
def verify_refresh_token (decode : String → Option Payload)
    (tokens : List RefreshTokenRow) (users : List User) (token : String) :
    Option User :=
  match decode token with
  | none => none
  | some payload =>
    if payload.typ ≠ "refresh" then none
    else
      match tokens.find? (fun r => r.token == token && r.is_revoked == 0) with
      | none => none
      | some _ =>
        match payload.user_id with
        | none => none
        | some uid => users.find? (fun u => u.id == uid)

/-- src/main.py `create_access_token` (lines 184-194): pure token
construction, no side effect.  The "exp" claim lives inside the abstract
encoding. -/
def create_access_token (encode : Payload → String) (sub : String)
    (user_id : Nat) : String :=
  encode { sub := some sub, user_id := some user_id, typ := "access" }

/-- src/main.py `create_refresh_token` (lines 197-211): encode a refresh
token and insert a ledger row `{user_id, token, is_revoked = 0}`.  The
`token` column is `unique=True`, so committing a duplicate token string
raises an integrity error and inserts nothing; that failure is the
`Except.error` branch. -/
def create_refresh_token (encode : Payload → String) (user : User)
    (tokens : List RefreshTokenRow) :
    Except Unit (String × List RefreshTokenRow) :=
  let tok := encode { sub := some user.username, user_id := some user.id, typ := "refresh" }
  if tokens.any (fun r => r.token == tok) then Except.error ()
  else Except.ok (tok, tokens ++ [{ user_id := user.id, token := tok, is_revoked := 0 }])

/-- The revocation step of src/main.py `logout` (lines 393-399): fetch the
first ledger row whose token equals the cookie value (`first()`), and if
present set its `is_revoked` column to 1.  No row is added or removed;
an unknown token leaves the table untouched. -/
def markRevoked : List RefreshTokenRow → String → List RefreshTokenRow
  | [], _ => []
  | r :: rs, t =>
    if r.token == t then { r with is_revoked := 1 } :: rs
    else r :: markRevoked rs t

/-- src/main.py `logout` (lines 389-404): revoke the refresh-token cookie's
ledger row when the cookie is present and truthy, then redirect and delete
both cookies.  Only the ledger effect is relevant to the claims. -/
def logout (tokens : List RefreshTokenRow) (refresh_cookie : Option String) :
    List RefreshTokenRow :=
  match refresh_cookie with
  | none => tokens
  | some t => if t = "" then tokens else markRevoked tokens t

/-- src/main.py `get_current_user` (lines 237-265).  Returns the resolved
user together with the list of `set_cookie` calls the resolver performs on
the outgoing response.  The source function receives only `(request, db)`
— it has no handle on any `Response` object — and on the refresh path it
binds the freshly minted access token to the local `new_access_token`
(line 258) and then returns the user without attaching the token to
anything; the comment on line 262 says the cookie will be set later, but
neither this function nor any caller does so.  Hence the recorded
`set_cookie` list is empty on every path.

Control flow mirrored exactly: a present, truthy access cookie that
decodes with `type == "access"` and a truthy `sub` returns the user lookup
result directly — even when the lookup is `None` (no fall-through to the
refresh branch in that case). -/
def get_current_user (decodeA decodeR : String → Option Payload)
    (encodeA : Payload → String) (users : List User)
    (tokens : List RefreshTokenRow)
    (access_cookie refresh_cookie : Option String) :
    Option User × List SetCookie :=
  let accessReturn : Option (Option User) :=
    match access_cookie with
    | none => none
    | some at_ =>
      if at_ = "" then none
      else
        match decodeA at_ with
        | none => none
        | some payload =>
          if payload.typ = "access" then
            match payload.sub with
            | none => none
            | some username =>
              if username = "" then none
              else some (users.find? (fun u => u.username == username))
          else none
  match accessReturn with
  | some result => (result, [])
  | none =>
    match refresh_cookie with
    | none => (none, [])
    | some rt =>
      if rt = "" then (none, [])
      else
        match verify_refresh_token decodeR tokens users rt with
        | some user =>
          let _new_access_token := create_access_token encodeA user.username user.id
          (some user, [])
        | none => (none, [])

/-- The `budget_entries` table row (src/main.py `class BudgetEntry`):
three income fields, thirteen fixed expense fields, four
investment/savings fields, keyed by (user_id, month, year). -/
structure BudgetEntry where
  id : Nat
  user_id : Nat
  month : String
  year : Int
  salary : ℚ
  freelancing_one : ℚ
  freelancing_two : ℚ
  mobile_recharge : ℚ
  wifi : ℚ
  emi_one : ℚ
  emi_two : ℚ
  emi_three : ℚ
  emi_four : ℚ
  food : ℚ
  rent : ℚ
  creditcard_one : ℚ
  creditcard_two : ℚ
  shopping : ℚ
  travel : ℚ
  other_expenses : ℚ
  sip : ℚ
  fixed_deposit_one : ℚ
  fixed_deposit_two : ℚ
  etf : ℚ

/-- The `variable_budget_entries` table row (src/main.py
`class VariableBudgetEntry`); `is_finalized` is the 0/1 integer column
(0 = draft, 1 = finalized). -/
structure VariableBudgetEntry where
  id : Nat
  user_id : Nat
  month : String
  year : Int
  category : String
  amount : ℚ
  is_finalized : Nat
  deriving Repr, DecidableEq

/-- `total_income` as computed at src/main.py lines 1396 and 1597:
salary plus the two freelancing fields. -/
def total_income (e : BudgetEntry) : ℚ :=
  e.salary + e.freelancing_one + e.freelancing_two

/-- `total_expenses` as computed at src/main.py lines 1397-1411 and
1598-1612: the sum of the thirteen fixed expense fields. -/
def total_expenses (e : BudgetEntry) : ℚ :=
  e.mobile_recharge + e.wifi + e.emi_one + e.emi_two + e.emi_three +
    e.emi_four + e.food + e.rent + e.creditcard_one + e.creditcard_two +
    e.shopping + e.travel + e.other_expenses

/-- `total_investments` as computed at src/main.py lines 1413-1418 and
1614-1616: sip plus the two fixed deposits plus etf. -/
def total_investments (e : BudgetEntry) : ℚ :=
  e.sip + e.fixed_deposit_one + e.fixed_deposit_two + e.etf

/-- `budget_balance` as computed at src/main.py lines 1420 and 1618. -/
def budget_balance (e : BudgetEntry) : ℚ :=
  total_income e - total_expenses e - total_investments e

/-- The `month_order` list shared by the yearly and monthly analytics
handlers (src/main.py lines 1329-1342 and 1563-1576). -/
def month_order : List String :=
  ["January", "February", "March", "April", "May", "June",
   "July", "August", "September", "October", "November", "December"]

/-- The slice of the yearly rollup output (src/main.py
`get_yearly_chart_data`, lines 1312-1494) needed by the claims: the
`months` list, the four `monthly_totals` series, and the summary
sums/averages plus `months_with_data`. -/
structure YearlyData where
  months : List String
  income : List ℚ
  expenses : List ℚ
  investments : List ℚ
  balance : List ℚ
  total_income_sum : ℚ
  total_expenses_sum : ℚ
  total_investments_sum : ℚ
  total_balance_sum : ℚ
  average_monthly_income : ℚ
  average_monthly_expenses : ℚ
  average_monthly_investments : ℚ
  average_monthly_balance : ℚ
  months_with_data : Nat
  deriving Repr, DecidableEq

/-- The per-month lookup dictionary `entries_by_month` built at
src/main.py line 1386 by a comprehension over the query result: for a
duplicated month key the later entry overwrites the earlier one, so the
lookup returns the last row of the list with that month. -/
def entries_by_month (entries : List BudgetEntry) (m : String) :
    Option BudgetEntry :=
  entries.reverse.find? (fun e => e.month == m)

/-- src/main.py `get_yearly_chart_data` (lines 1312-1494): filter the
user's rows for the year, then walk `month_order` appending one data
point per month that has a row (months without a row are skipped — no
zero-filling), and finally compute year sums and averages with divisor
`max(len(list), 1)`, and `months_with_data = len(months)`. -/
def get_yearly_chart_data (all_entries : List BudgetEntry) (uid : Nat)
    (year : Int) : YearlyData :=
  let entries := all_entries.filter
    (fun e => e.user_id == uid && e.year == year)
  let pts : List (String × BudgetEntry) := month_order.filterMap
    (fun m => (entries_by_month entries m).map (fun e => (m, e)))
  let income := pts.map (fun p => total_income p.2)
  let expenses := pts.map (fun p => total_expenses p.2)
  let investments := pts.map (fun p => total_investments p.2)
  let balance := pts.map (fun p => budget_balance p.2)
  { months := pts.map Prod.fst
    income := income
    expenses := expenses
    investments := investments
    balance := balance
    total_income_sum := income.sum
    total_expenses_sum := expenses.sum
    total_investments_sum := investments.sum
    total_balance_sum := balance.sum
    average_monthly_income := income.sum / (max income.length 1 : ℚ)
    average_monthly_expenses := expenses.sum / (max expenses.length 1 : ℚ)
    average_monthly_investments := investments.sum / (max investments.length 1 : ℚ)
    average_monthly_balance := balance.sum / (max balance.length 1 : ℚ)
    months_with_data := (pts.map Prod.fst).length }

/-- The `comparisons` block of src/main.py `get_monthly_analysis_data`
(lines 1740-1764). -/
structure Comparisons where
  income_change : ℚ
  income_change_percent : ℚ
  expenses_change : ℚ
  expenses_change_percent : ℚ
  investments_change : ℚ
  investments_change_percent : ℚ
  budget_balance_change : ℚ
  deriving Repr, DecidableEq

/-- src/main.py lines 1621-1647 and 1740-1764: previous-month totals
default to 0 when `prev_entry` is `None`; each percentage delta divides
only under its guard (`prev_income > 0`, `prev_expenses > 0`,
`prev_investments != 0`) and is the literal 0 otherwise. -/
def comparisons (entry : BudgetEntry) (prev_entry : Option BudgetEntry) :
    Comparisons :=
  let current_income := total_income entry
  let current_expenses := total_expenses entry
  let current_investments := total_investments entry
  let current_budget_balance :=
    current_income - current_expenses - current_investments
  let prev_income := match prev_entry with
    | some p => total_income p
    | none => 0
  let prev_expenses := match prev_entry with
    | some p => total_expenses p
    | none => 0
  let prev_investments := match prev_entry with
    | some p => total_investments p
    | none => 0
  let prev_budget_balance := match prev_entry with
    | some _ => prev_income - prev_expenses - prev_investments
    | none => 0
  { income_change :=
      if prev_entry.isSome then current_income - prev_income else 0
    income_change_percent :=
      if prev_entry.isSome ∧ prev_income > 0 then
        (current_income - prev_income) / prev_income * 100
      else 0
    expenses_change :=
      if prev_entry.isSome then current_expenses - prev_expenses else 0
    expenses_change_percent :=
      if prev_entry.isSome ∧ prev_expenses > 0 then
        (current_expenses - prev_expenses) / prev_expenses * 100
      else 0
    investments_change :=
      if prev_entry.isSome then current_investments - prev_investments else 0
    investments_change_percent :=
      if prev_entry.isSome ∧ prev_investments ≠ 0 then
        (current_investments - prev_investments) / prev_investments * 100
      else 0
    budget_balance_change :=
      if prev_entry.isSome then
        current_budget_balance - prev_budget_balance
      else 0 }

/-- The preceding-period computation of src/main.py lines 1578-1584:
`month_order.index(month)` (a `ValueError`, modelled as `none`, when the
string is not a month name), then December of the previous year when the
index is 0, otherwise the previous name in `month_order` of the same
year. -/
def prev_period (month : String) (year : Int) : Option (String × Int) :=
  match month_order.findIdx? (fun m => m == month) with
  | none => none
  | some i =>
    if i = 0 then some ("December", year - 1)
    else some (((month_order.get? (i - 1)).getD ""), year)

/-- src/main.py `get_monthly_analysis_data` (lines 1540-1795), restricted
to the comparison output: find the month's entry (`None` gives the error
response), locate the preceding calendar month's entry, and build the
`comparisons` block. -/
def get_monthly_comparisons (entries : List BudgetEntry) (uid : Nat)
    (year : Int) (month : String) : Option Comparisons :=
  match entries.find? (fun e =>
      e.user_id == uid && e.year == year && e.month == month) with
  | none => none
  | some entry =>
    match prev_period month year with
    | none => none
    | some (prev_month, prev_year) =>
      let prev_entry := entries.find? (fun e =>
        e.user_id == uid && e.year == prev_year && e.month == prev_month)
      some (comparisons entry prev_entry)

/-- The candidate list of the `largest_expense_category` analytic,
in the order written at src/main.py lines 1774-1790. -/
def expense_candidates (e : BudgetEntry) : List (String × ℚ) :=
  [("Rent", e.rent),
   ("Food", e.food),
   ("EMIs", e.emi_one + e.emi_two + e.emi_three + e.emi_four),
   ("Credit Cards", e.creditcard_one + e.creditcard_two),
   ("Shopping", e.shopping),
   ("Travel", e.travel),
   ("Other", e.other_expenses)]

/-- Python `max(lst, key=lambda x: x[1])` over a nonempty list: scan left
to right keeping the current maximum and replacing it only on a strictly
greater key, so ties resolve to the earliest maximal element. -/
def pymax_by_snd (x : String × ℚ) (xs : List (String × ℚ)) : String × ℚ :=
  xs.foldl (fun acc y => if y.2 > acc.2 then y else acc) x

/-- src/main.py lines 1774-1791: `largest_expense_category`. -/
def largest_expense_category (e : BudgetEntry) : String × ℚ :=
  pymax_by_snd ("Rent", e.rent)
    ((expense_candidates e).drop 1)

/-- The twenty numeric form fields of `POST /budget` (src/main.py
lines 429-448), each defaulting to 0.0 in the route signature. -/
structure BudgetForm where
  salary : ℚ
  freelancing_one : ℚ
  freelancing_two : ℚ
  mobile_recharge : ℚ
  wifi : ℚ
  emi_one : ℚ
  emi_two : ℚ
  emi_three : ℚ
  emi_four : ℚ
  food : ℚ
  rent : ℚ
  creditcard_one : ℚ
  creditcard_two : ℚ
  shopping : ℚ
  travel : ℚ
  other_expenses : ℚ
  sip : ℚ
  fixed_deposit_one : ℚ
  fixed_deposit_two : ℚ
  etf : ℚ

/-- The responses `save_budget` can produce (src/main.py lines 426-565):
the warning re-render of `budget.html` carrying the conflicting existing
entry, the user's entry listing, and the `form_data` dict of all twenty
submitted values (lines 480-511); or the redirect to `/budget`. The
login redirect path is not modelled (the claims assume an authenticated
user). -/
inductive SaveResponse where
  | conflictForm (existing : BudgetEntry) (shown : List BudgetEntry)
      (form_data : BudgetForm)
  | redirectBudget

/-- Overwrite every field group of an existing row with the submitted
values, in place (src/main.py lines 515-534). -/
def applyForm (e : BudgetEntry) (f : BudgetForm) : BudgetEntry :=
  { e with
    salary := f.salary
    freelancing_one := f.freelancing_one
    freelancing_two := f.freelancing_two
    mobile_recharge := f.mobile_recharge
    wifi := f.wifi
    emi_one := f.emi_one
    emi_two := f.emi_two
    emi_three := f.emi_three
    emi_four := f.emi_four
    food := f.food
    rent := f.rent
    creditcard_one := f.creditcard_one
    creditcard_two := f.creditcard_two
    shopping := f.shopping
    travel := f.travel
    other_expenses := f.other_expenses
    sip := f.sip
    fixed_deposit_one := f.fixed_deposit_one
    fixed_deposit_two := f.fixed_deposit_two
    etf := f.etf }

/-- A fresh row built by the `else` branch of `save_budget`
(src/main.py lines 536-562); `new_id` stands for the autoincrement
primary key assigned at INSERT. -/
def newBudgetEntry (new_id : Nat) (uid : Nat) (month : String) (year : Int)
    (f : BudgetForm) : BudgetEntry :=
  { id := new_id
    user_id := uid
    month := month
    year := year
    salary := f.salary
    freelancing_one := f.freelancing_one
    freelancing_two := f.freelancing_two
    mobile_recharge := f.mobile_recharge
    wifi := f.wifi
    emi_one := f.emi_one
    emi_two := f.emi_two
    emi_three := f.emi_three
    emi_four := f.emi_four
    food := f.food
    rent := f.rent
    creditcard_one := f.creditcard_one
    creditcard_two := f.creditcard_two
    shopping := f.shopping
    travel := f.travel
    other_expenses := f.other_expenses
    sip := f.sip
    fixed_deposit_one := f.fixed_deposit_one
    fixed_deposit_two := f.fixed_deposit_two
    etf := f.etf }

/-- src/main.py `save_budget` (lines 426-565).  `current_month` /
`current_year` stand for `datetime.now().strftime("%B")` / `.year`
(lines 457-459).  Look up the first row for (user, month, year); if one
exists and `confirm_overwrite != "yes"`, re-render the form (no `db.add`,
no field assignment, no `db.commit` on that path — the stored rows are
returned unchanged) with the existing row, the user's entries, and a
`form_data` dict rebuilt field by field from the submitted values; if one
exists and confirmation was given, assign every field of that row in
place and commit; otherwise insert a fresh row. -/
def save_budget (entries : List BudgetEntry) (uid : Nat)
    (current_month : String) (current_year : Int) (f : BudgetForm)
    (confirm_overwrite : String) (new_id : Nat) :
    SaveResponse × List BudgetEntry :=
  let existing_entry := entries.find? (fun e =>
    e.user_id == uid && e.month == current_month && e.year == current_year)
  match existing_entry with
  | some ex =>
    if confirm_overwrite ≠ "yes" then
      (SaveResponse.conflictForm ex
        (entries.filter (fun e => e.user_id == uid))
        { salary := f.salary
          freelancing_one := f.freelancing_one
          freelancing_two := f.freelancing_two
          mobile_recharge := f.mobile_recharge
          wifi := f.wifi
          emi_one := f.emi_one
          emi_two := f.emi_two
          emi_three := f.emi_three
          emi_four := f.emi_four
          food := f.food
          rent := f.rent
          creditcard_one := f.creditcard_one
          creditcard_two := f.creditcard_two
          shopping := f.shopping
          travel := f.travel
          other_expenses := f.other_expenses
          sip := f.sip
          fixed_deposit_one := f.fixed_deposit_one
          fixed_deposit_two := f.fixed_deposit_two
          etf := f.etf },
        entries)
    else
      (SaveResponse.redirectBudget,
        entries.map (fun e => if e.id == ex.id then applyForm e f else e))
  | none =>
    (SaveResponse.redirectBudget,
      entries ++ [newBudgetEntry new_id uid current_month current_year f])

/-- The four BudgetEntry columns touched by the finalize loop
(src/main.py lines 1078-1086), as they live on the in-memory ORM object
being mutated.  SQLAlchemy evaluates `Column(..., default=0.0)` only when
the INSERT runs at flush/commit time, so a freshly constructed
`BudgetEntry(user_id=..., month=..., year=...)` (lines 1070-1074) has
`None` in every unset attribute until commit — hence `Option`: a row
loaded from the database carries `some` values, a pending new object
carries `none`. -/
structure PendingFields where
  food : Option ℚ
  travel : Option ℚ
  shopping : Option ℚ
  other_expenses : Option ℚ

/-- Python `field += total` on the ORM object: on a real number it adds;
on `None` (pending object before INSERT-time defaults) it raises
`TypeError: unsupported operand type(s) for +=: NoneType and float`,
modelled as `Except.error`. -/
def pyAdd (v : Option ℚ) (t : ℚ) : Except Unit (Option ℚ) :=
  match v with
  | none => Except.error ()
  | some x => Except.ok (some (x + t))

/-- The dict update `category_totals[cat] += amount` with first-seen
insertion order (src/main.py lines 1051-1055). -/
def add_total (acc : List (String × ℚ)) (cat : String) (amt : ℚ) :
    List (String × ℚ) :=
  if acc.any (fun p => p.1 == cat) then
    acc.map (fun p => if p.1 == cat then (p.1, p.2 + amt) else p)
  else acc ++ [(cat, amt)]

/-- `category_totals` built by the loop at src/main.py lines 1051-1055:
per-category sums over the collected draft rows, keyed in order of first
appearance. -/
def category_totals (entries : List VariableBudgetEntry) :
    List (String × ℚ) :=
  entries.foldl (fun acc e => add_total acc e.category e.amount) []

/-- The update loop at src/main.py lines 1078-1086: for each
(category, total) pair, `+=` the total into the matching field when the
category is one of the four recognized names, and silently skip any
other category.  The first `+=` against a `None` attribute aborts the
request with a `TypeError`. -/
def apply_categories (fields : PendingFields)
    (totals : List (String × ℚ)) : Except Unit PendingFields :=
  match totals with
  | [] => Except.ok fields
  | (cat, total) :: rest =>
    if cat = "food" then
      match pyAdd fields.food total with
      | Except.error e => Except.error e
      | Except.ok v => apply_categories { fields with food := v } rest
    else if cat = "travel" then
      match pyAdd fields.travel total with
      | Except.error e => Except.error e
      | Except.ok v => apply_categories { fields with travel := v } rest
    else if cat = "shopping" then
      match pyAdd fields.shopping total with
      | Except.error e => Except.error e
      | Except.ok v => apply_categories { fields with shopping := v } rest
    else if cat = "other" then
      match pyAdd fields.other_expenses total with
      | Except.error e => Except.error e
      | Except.ok v => apply_categories { fields with other_expenses := v } rest
    else apply_categories fields rest

/-- The database state touched by the finalize flow. -/
structure Db where
  budgets : List BudgetEntry
  variable_budget_entries : List VariableBudgetEntry

/-- The draft-row filter of src/main.py lines 1036-1045. -/
def isDraftFor (uid : Nat) (month : String) (year : Int)
    (e : VariableBudgetEntry) : Bool :=
  e.user_id == uid && e.month == month && e.year == year &&
    e.is_finalized == 0

/-- A BudgetEntry row as materialized by an INSERT whose numeric columns
all fell back to their `default=0.0` (src/main.py lines 77-102);
`new_id` is the assigned autoincrement key. -/
def zeroBudgetEntry (new_id : Nat) (uid : Nat) (month : String)
    (year : Int) : BudgetEntry :=
  { id := new_id
    user_id := uid
    month := month
    year := year
    salary := 0
    freelancing_one := 0
    freelancing_two := 0
    mobile_recharge := 0
    wifi := 0
    emi_one := 0
    emi_two := 0
    emi_three := 0
    emi_four := 0
    food := 0
    rent := 0
    creditcard_one := 0
    creditcard_two := 0
    shopping := 0
    travel := 0
    other_expenses := 0
    sip := 0
    fixed_deposit_one := 0
    fixed_deposit_two := 0
    etf := 0 }

/-- src/main.py `finalize_variable_budget` (lines 1024-1093).
Collect the user's draft rows for the current period; if none, redirect
with no change.  Otherwise build the per-category sums, fetch the
period's BudgetEntry — or construct a pending one whose unset attributes
are `None` until INSERT-time column defaults apply — run the category
update loop (`+=` on a `None` attribute raises, aborting the request
before `db.commit()` is reached, so the error branch leaves the database
unchanged), mark every collected row `is_finalized = 1`, and commit.  On
the create path the pending object's untouched `None` columns receive
the 0.0 column default at INSERT. -/
def finalize_variable_budget (db : Db) (uid : Nat)
    (current_month : String) (current_year : Int) (new_id : Nat) :
    Except Unit Db :=
  let variable_entries :=
    db.variable_budget_entries.filter (isDraftFor uid current_month current_year)
  if variable_entries.isEmpty then Except.ok db
  else
    let totals := category_totals variable_entries
    let budget_entry := db.budgets.find? (fun b =>
      b.user_id == uid && b.month == current_month && b.year == current_year)
    let markAll := db.variable_budget_entries.map (fun e =>
      if isDraftFor uid current_month current_year e then
        { e with is_finalized := 1 }
      else e)
    match budget_entry with
    | some b =>
      match apply_categories
          { food := some b.food, travel := some b.travel,
            shopping := some b.shopping,
            other_expenses := some b.other_expenses } totals with
      | Except.error e => Except.error e
      | Except.ok f =>
        Except.ok
          { budgets := db.budgets.map (fun e =>
              if e.id == b.id then
                { e with
                  food := f.food.getD e.food
                  travel := f.travel.getD e.travel
                  shopping := f.shopping.getD e.shopping
                  other_expenses := f.other_expenses.getD e.other_expenses }
              else e)
            variable_budget_entries := markAll }
    | none =>
      match apply_categories
          { food := none, travel := none, shopping := none,
            other_expenses := none } totals with
      | Except.error e => Except.error e
      | Except.ok f =>
        Except.ok
          { budgets := db.budgets ++
              [{ zeroBudgetEntry new_id uid current_month current_year with
                 food := f.food.getD 0
                 travel := f.travel.getD 0
                 shopping := f.shopping.getD 0
                 other_expenses := f.other_expenses.getD 0 }]
            variable_budget_entries := markAll }

/-! ## Token-layer lemmas -/

lemma markRevoked_eq_of_no_match (tokens : List RefreshTokenRow)
    (t : String) (h : ∀ r ∈ tokens, r.token ≠ t) :
    markRevoked tokens t = tokens := by
  induction tokens with
  | nil => rfl
  | cons r rs ih =>
    have hr : r.token ≠ t := h r (List.mem_cons_self r rs)
    simp only [markRevoked]
    rw [if_neg (by simpa using hr)]
    rw [ih (fun x hx => h x (List.mem_cons_of_mem r hx))]

lemma markRevoked_eq_of_all_revoked (tokens : List RefreshTokenRow)
    (t : String) (h : ∀ r ∈ tokens, r.token = t → r.is_revoked = 1) :
    markRevoked tokens t = tokens := by
  induction tokens with
  | nil => rfl
  | cons r rs ih =>
    simp only [markRevoked]
    by_cases hr : r.token = t
    · rw [if_pos (by simpa using hr)]
      have hrev : r.is_revoked = 1 := h r (List.mem_cons_self r rs) hr
      cases r
      simp_all
    · rw [if_neg (by simpa using hr)]
      rw [ih (fun x hx hxt => h x (List.mem_cons_of_mem r hx) hxt)]

lemma markRevoked_idem (tokens : List RefreshTokenRow) (t : String) :
    markRevoked (markRevoked tokens t) t = markRevoked tokens t := by
  induction tokens with
  | nil => rfl
  | cons r rs ih =>
    simp only [markRevoked]
    by_cases hr : r.token = t
    · rw [if_pos (by simpa using hr)]
      simp only [markRevoked]
      rw [if_pos (by simpa using hr)]
    · rw [if_neg (by simpa using hr)]
      simp only [markRevoked]
      rw [if_neg (by simpa using hr), ih]

lemma markRevoked_token_surviving (tokens : List RefreshTokenRow)
    (t' t : String) (h : ∃ r ∈ tokens, r.token = t) :
    ∃ r ∈ markRevoked tokens t', r.token = t := by
  induction tokens with
  | nil => simp at h
  | cons r rs ih =>
    simp only [markRevoked]
    by_cases hr : r.token == t'
    · rw [if_pos hr]
      obtain ⟨x, hx, hxt⟩ := h
      rcases List.mem_cons.mp hx with hhd | htl
      · exact ⟨{ r with is_revoked := 1 }, List.mem_cons_self _ _, by
          subst hhd; simpa using hxt⟩
      · exact ⟨x, List.mem_cons_of_mem _ htl, hxt⟩
    · rw [if_neg hr]
      obtain ⟨x, hx, hxt⟩ := h
      rcases List.mem_cons.mp hx with hhd | htl
      · exact ⟨x, by rw [hhd]; exact List.mem_cons_self _ _, hxt⟩
      · obtain ⟨y, hy, hyt⟩ := ih ⟨x, htl, hxt⟩
        exact ⟨y, List.mem_cons_of_mem _ hy, hyt⟩

lemma markRevoked_preserves_all_revoked (tokens : List RefreshTokenRow)
    (t' t : String) (h : ∀ r ∈ tokens, r.token = t → r.is_revoked = 1) :
    ∀ r ∈ markRevoked tokens t', r.token = t → r.is_revoked = 1 := by
  induction tokens with
  | nil => simp [markRevoked]
  | cons r rs ih =>
    intro x hx hxt
    simp only [markRevoked] at hx
    by_cases hr : r.token == t'
    · rw [if_pos hr] at hx
      rcases List.mem_cons.mp hx with hhd | htl
      · subst hhd; rfl
      · exact h x (List.mem_cons_of_mem r htl) hxt
    · rw [if_neg hr] at hx
      rcases List.mem_cons.mp hx with hhd | htl
      · subst hhd; exact h x (List.mem_cons_self _ _) hxt
      · exact ih (fun y hy => h y (List.mem_cons_of_mem r hy)) x htl hxt

lemma markRevoked_sets_flag (tokens : List RefreshTokenRow) (t : String)
    (h : ∃ r ∈ tokens, r.token = t) :
    ∃ r ∈ markRevoked tokens t, r.token = t ∧ r.is_revoked = 1 := by
  induction tokens with
  | nil => simp at h
  | cons r rs ih =>
    simp only [markRevoked]
    by_cases hr : r.token = t
    · rw [if_pos (by simpa using hr)]
      exact ⟨{ r with is_revoked := 1 }, List.mem_cons_self _ _, hr, rfl⟩
    · rw [if_neg (by simpa using hr)]
      obtain ⟨x, hx, hxt⟩ := h
      rcases List.mem_cons.mp hx with hhd | htl
      · exact absurd (hhd ▸ hxt) hr
      · obtain ⟨y, hy, hyt, hyrev⟩ := ih ⟨x, htl, hxt⟩
        exact ⟨y, List.mem_cons_of_mem _ hy, hyt, hyrev⟩

/-- If every ledger row carrying this token string is revoked, the
`is_revoked == 0` lookup inside `verify_refresh_token` finds nothing, so
verification fails no matter what the signature/expiry check (`decode`)
says and no matter which users exist. -/
lemma verify_none_of_all_revoked (decode : String → Option Payload)
    (tokens : List RefreshTokenRow) (users : List User) (t : String)
    (hAll : ∀ r ∈ tokens, r.token = t → r.is_revoked = 1) :
    verify_refresh_token decode tokens users t = none := by
  unfold verify_refresh_token
  cases hdec : decode t with
  | none => rfl
  | some p =>
    dsimp only
    by_cases htyp : p.typ = "refresh"
    · rw [if_neg (by simp [htyp])]
      have hfind : tokens.find?
          (fun r => r.token == t && r.is_revoked == 0) = none := by
        rw [List.find?_eq_none]
        intro r hr
        by_cases hrt : r.token = t
        · have := hAll r hr hrt
          simp [hrt, this]
        · simp [hrt]
      rw [hfind]
    · rw [if_pos (by simp [htyp])]

/-! ## C1: session renewal on the refresh path -/

/-- C1: the session resolver `get_current_user`, on a request whose
access-token cookie is absent but whose refresh-token cookie verifies
(here: a decode that accepts the string "rt1" as a refresh payload for
user 1, whose non-revoked ledger row exists), returns the resolved
identity — but the list of `set_cookie` calls it performs on the outgoing
response is empty: the freshly minted access token (local
`new_access_token`, src/main.py line 258) is discarded, contradicting the
source comment "We'll set the new cookie in the response later" and the
claimed invariant that renewal is observable to the client. -/
theorem get_current_user_refresh_sets_no_cookie :
    get_current_user (fun _ => none)
      (fun s => if s = "rt1" then
          some { sub := some "veera", user_id := some 1, typ := "refresh" }
        else none)
      (fun _ => "fresh-access-token")
      [{ id := 1, username := "veera" }]
      [{ user_id := 1, token := "rt1", is_revoked := 0 }]
      none (some "rt1")
    = (some { id := 1, username := "veera" }, ([] : List SetCookie)) := by
  rfl

/-! ## C8: revocation is idempotent and total -/

/-- C8: `logout`'s revocation step is total (the Lean function is defined
on every ledger and token string, as the Python path performs only a
query, one attribute assignment and a commit — no raise): revoking a
token with no matching row leaves the ledger unchanged; revoking a token
all of whose matching rows are already revoked leaves the ledger
unchanged; revoking twice equals revoking once; and when a matching row
exists, after revocation a row with that token is marked revoked. -/
theorem revoke_idempotent_total (tokens : List RefreshTokenRow)
    (t : String) :
    ((∀ r ∈ tokens, r.token ≠ t) → markRevoked tokens t = tokens) ∧
    ((∀ r ∈ tokens, r.token = t → r.is_revoked = 1) →
      markRevoked tokens t = tokens) ∧
    markRevoked (markRevoked tokens t) t = markRevoked tokens t ∧
    ((∃ r ∈ tokens, r.token = t) →
      ∃ r ∈ markRevoked tokens t, r.token = t ∧ r.is_revoked = 1) :=
  ⟨markRevoked_eq_of_no_match tokens t,
   markRevoked_eq_of_all_revoked tokens t,
   markRevoked_idem tokens t,
   markRevoked_sets_flag tokens t⟩

/-- Witness for C8 at a concrete ledger: revoking the unknown token "b"
is a no-op. -/
theorem revoke_idempotent_total_witness :
    markRevoked [{ user_id := 1, token := "a", is_revoked := 0 }] "b"
      = [{ user_id := 1, token := "a", is_revoked := 0 }] :=
  (revoke_idempotent_total
    [{ user_id := 1, token := "a", is_revoked := 0 }] "b").1 (by decide)

/-! ## C4: revocation is permanent -/

/-- The system operations that touch the `refresh_tokens` ledger: a
successful login persists a fresh row through `create_refresh_token`
(src/main.py lines 197-211; the unique constraint on `token` means a
duplicate string cannot be committed), and `logout` revokes a row
(lines 389-404).  No other handler writes this table, and no operation
ever clears `is_revoked`. -/
inductive TokenStep : List RefreshTokenRow → List RefreshTokenRow → Prop where
  | issue (tokens : List RefreshTokenRow) (encode : Payload → String)
      (user : User) (tok : String) (tokens' : List RefreshTokenRow)
      (h : create_refresh_token encode user tokens = Except.ok (tok, tokens')) :
      TokenStep tokens tokens'
  | revoke (tokens : List RefreshTokenRow) (t : String) :
      TokenStep tokens (markRevoked tokens t)

/-- A successful issue appends one row whose token string is not already
in the ledger. -/
lemma issue_shape {tokens tokens' : List RefreshTokenRow}
    {encode : Payload → String} {user : User} {tok : String}
    (h : create_refresh_token encode user tokens = Except.ok (tok, tokens')) :
    tokens' = tokens ++ [{ user_id := user.id, token := tok, is_revoked := 0 }]
      ∧ ∀ r ∈ tokens, r.token ≠ tok := by
  unfold create_refresh_token at h
  dsimp only at h
  split at h
  · exact absurd h (by simp)
  · rename_i hdup
    simp only [Except.ok.injEq, Prod.mk.injEq] at h
    obtain ⟨htok, hlist⟩ := h
    subst htok
    refine ⟨hlist.symm, fun r hr hcontra => ?_⟩
    simp only [List.any_eq_true] at hdup
    exact hdup ⟨r, hr, by simpa using hcontra⟩

/-- The "token `t` is revoked" configuration — some ledger row carries
token `t`, and every ledger row carrying `t` is revoked — is preserved
by every ledger-touching operation. -/
lemma revoked_preserved {s s' : List RefreshTokenRow} {t : String}
    (hEx : ∃ r ∈ s, r.token = t)
    (hAll : ∀ r ∈ s, r.token = t → r.is_revoked = 1)
    (hstep : TokenStep s s') :
    (∃ r ∈ s', r.token = t) ∧
    (∀ r ∈ s', r.token = t → r.is_revoked = 1) := by
  cases hstep with
  | issue tokens encode user tok h =>
    obtain ⟨hshape, hfresh⟩ := issue_shape h
    subst hshape
    constructor
    · obtain ⟨x, hx, hxt⟩ := hEx
      exact ⟨x, List.mem_append_left _ hx, hxt⟩
    · intro r hr hrt
      rcases List.mem_append.mp hr with hold | hnew
      · exact hAll r hold hrt
      · obtain ⟨x, hx, hxt⟩ := hEx
        simp only [List.mem_singleton] at hnew
        subst hnew
        simp only at hrt
        exact absurd (hxt.trans hrt.symm) (hfresh x hx)
  | revoke t' =>
    exact ⟨markRevoked_token_surviving s t' t hEx,
      markRevoked_preserves_all_revoked s t' t hAll⟩

/-- C4: once every ledger row carrying a token string is revoked (and one
such row exists — e.g. right after `logout` marks it), then in every
state reachable through the system's ledger operations (issuing fresh
refresh tokens at login, revoking at logout), `verify_refresh_token` on
that string returns `none`, for an arbitrary signature/expiry checker
`decode` (so even a cryptographically valid, unexpired token) and an
arbitrary user table. -/
theorem revoked_token_never_valid (decode : String → Option Payload)
    (users : List User) (s s' : List RefreshTokenRow) (t : String)
    (hEx : ∃ r ∈ s, r.token = t)
    (hAll : ∀ r ∈ s, r.token = t → r.is_revoked = 1)
    (hreach : Relation.ReflTransGen TokenStep s s') :
    verify_refresh_token decode s' users t = none := by
  have key : (∃ r ∈ s', r.token = t) ∧
      (∀ r ∈ s', r.token = t → r.is_revoked = 1) := by
    induction hreach with
    | refl => exact ⟨hEx, hAll⟩
    | tail hsteps hstep ih => exact revoked_preserved ih.1 ih.2 hstep
  exact verify_none_of_all_revoked decode s' users t key.2

/-- Witness for C4 at a concrete state: the ledger holds the single
revoked row for "rt1"; after one further revoke step the token still
verifies to `none`, even though the decode function accepts it as a
well-formed refresh token for the existing user 1. -/
theorem revoked_token_never_valid_witness :
    verify_refresh_token
      (fun _ => some { sub := some "veera", user_id := some 1, typ := "refresh" })
      (markRevoked [{ user_id := 1, token := "rt1", is_revoked := 1 }] "rt1")
      [{ id := 1, username := "veera" }] "rt1" = none :=
  revoked_token_never_valid
    (fun _ => some { sub := some "veera", user_id := some 1, typ := "refresh" })
    [{ id := 1, username := "veera" }]
    [{ user_id := 1, token := "rt1", is_revoked := 1 }]
    (markRevoked [{ user_id := 1, token := "rt1", is_revoked := 1 }] "rt1")
    "rt1" (by decide) (by decide)
    (Relation.ReflTransGen.single
      (TokenStep.revoke [{ user_id := 1, token := "rt1", is_revoked := 1 }] "rt1"))

/-! ## C10: valid non-revoked token for a nonexistent user -/

/-- C10: a token string that decodes successfully, carries
`type == "refresh"`, and matches a non-revoked ledger row still fails
verification when the embedded `user_id` matches no stored user (or is
absent): the final `first()` over the users table is `None` and
`verify_refresh_token` returns it unchanged. -/
theorem verify_refresh_unknown_user (decode : String → Option Payload)
    (tokens : List RefreshTokenRow) (users : List User) (t : String)
    (p : Payload) (hdec : decode t = some p) (htyp : p.typ = "refresh")
    (hrow : (tokens.find? (fun r => r.token == t && r.is_revoked == 0)).isSome)
    (huser : ∀ uid, p.user_id = some uid → ∀ u ∈ users, u.id ≠ uid) :
    verify_refresh_token decode tokens users t = none := by
  unfold verify_refresh_token
  rw [hdec]
  dsimp only
  rw [if_neg (by simp [htyp])]
  obtain ⟨r, hfind⟩ := Option.isSome_iff_exists.mp hrow
  rw [hfind]
  cases hui : p.user_id with
  | none => rfl
  | some uid =>
    rw [List.find?_eq_none]
    intro u hu
    simpa using huser uid hui u hu

/-- Witness for C10: decode accepts "rtx" as a refresh token for user id
99; a non-revoked ledger row for "rtx" exists; the users table holds only
user 1 — verification returns `none`. -/
theorem verify_refresh_unknown_user_witness :
    verify_refresh_token
      (fun _ => some { sub := some "ghost", user_id := some 99, typ := "refresh" })
      [{ user_id := 99, token := "rtx", is_revoked := 0 }]
      [{ id := 1, username := "veera" }] "rtx" = none :=
  verify_refresh_unknown_user
    (fun _ => some { sub := some "ghost", user_id := some 99, typ := "refresh" })
    [{ user_id := 99, token := "rtx", is_revoked := 0 }]
    [{ id := 1, username := "veera" }] "rtx"
    { sub := some "ghost", user_id := some 99, typ := "refresh" }
    rfl rfl (by decide) (by decide)

/-! ## C3: the budget-balance formula -/

/-- C3: for every BudgetEntry the computed balance is
income − expenses − investments, with the three totals summing exactly
the field groups of the source (three income fields, thirteen expense
fields, four investment fields); the all-zero entry balances to 0, and
the documented example (salary 50000, rent 10000, food 5000, sip 2000,
all else 0) yields 50000 / 15000 / 2000 / 33000. -/
theorem budget_balance_formula :
    (∀ e : BudgetEntry, budget_balance e =
        total_income e - total_expenses e - total_investments e) ∧
    (∀ e : BudgetEntry, total_income e =
        e.salary + e.freelancing_one + e.freelancing_two) ∧
    (∀ e : BudgetEntry, total_expenses e =
        e.mobile_recharge + e.wifi + e.emi_one + e.emi_two + e.emi_three +
          e.emi_four + e.food + e.rent + e.creditcard_one +
          e.creditcard_two + e.shopping + e.travel + e.other_expenses) ∧
    (∀ e : BudgetEntry, total_investments e =
        e.sip + e.fixed_deposit_one + e.fixed_deposit_two + e.etf) ∧
    budget_balance (zeroBudgetEntry 1 1 "January" 2024) = 0 ∧
    total_income { zeroBudgetEntry 1 1 "March" 2024 with
      salary := 50000, rent := 10000, food := 5000, sip := 2000 } = 50000 ∧
    total_expenses { zeroBudgetEntry 1 1 "March" 2024 with
      salary := 50000, rent := 10000, food := 5000, sip := 2000 } = 15000 ∧
    total_investments { zeroBudgetEntry 1 1 "March" 2024 with
      salary := 50000, rent := 10000, food := 5000, sip := 2000 } = 2000 ∧
    budget_balance { zeroBudgetEntry 1 1 "March" 2024 with
      salary := 50000, rent := 10000, food := 5000, sip := 2000 } = 33000 := by
  refine ⟨fun e => rfl, fun e => rfl, fun e => rfl, fun e => rfl, ?_, ?_, ?_, ?_, ?_⟩
  all_goals norm_num [budget_balance, total_income, total_expenses,
    total_investments, zeroBudgetEntry]

/-! ## C5: month-over-month percentage deltas -/

/-- C5: for an analysis request that produces a comparisons block, the
preceding period is the previous calendar month (December of the prior
year when the month is January), and each of the three percentage deltas
is exactly 0 when that period has no entry or when its base total is 0
(the divisions are guarded by `prev_income > 0`, `prev_expenses > 0` and
`prev_investments != 0` respectively, so no division by zero is ever
performed). -/
theorem mom_percent_zero_policy (entries : List BudgetEntry) (uid : Nat)
    (year : Int) (month : String) (c : Comparisons)
    (h : get_monthly_comparisons entries uid year month = some c) :
    prev_period "January" year = some ("December", year - 1) ∧
    (∀ pm py, prev_period month year = some (pm, py) →
      ((entries.find? (fun e =>
          e.user_id == uid && e.year == py && e.month == pm) = none →
        c.income_change_percent = 0 ∧ c.expenses_change_percent = 0 ∧
          c.investments_change_percent = 0) ∧
      (∀ p, entries.find? (fun e =>
          e.user_id == uid && e.year == py && e.month == pm) = some p →
        (total_income p = 0 → c.income_change_percent = 0) ∧
        (total_expenses p = 0 → c.expenses_change_percent = 0) ∧
        (total_investments p = 0 → c.investments_change_percent = 0)))) := by
  constructor
  · rfl
  · intro pm py hpp
    unfold get_monthly_comparisons at h
    cases hcur : entries.find? (fun e =>
        e.user_id == uid && e.year == year && e.month == month) with
    | none => rw [hcur] at h; exact absurd h (by simp)
    | some entry =>
      rw [hcur, hpp] at h
      simp only [Option.some.injEq] at h
      constructor
      · intro hnone
        rw [hnone] at h
        subst h
        refine ⟨?_, ?_, ?_⟩ <;> simp [comparisons]
      · intro p hp
        rw [hp] at h
        subst h
        refine ⟨?_, ?_, ?_⟩ <;> intro hz <;> simp [comparisons, hz]

/-- Witness for C5 at a concrete state: the only stored entry is
March 2024, so February 2024 is absent and all three percentage deltas
of the produced comparisons block are 0. -/
theorem mom_percent_zero_policy_witness :
    (comparisons (zeroBudgetEntry 1 1 "March" 2024) none).income_change_percent = 0 ∧
    (comparisons (zeroBudgetEntry 1 1 "March" 2024) none).expenses_change_percent = 0 ∧
    (comparisons (zeroBudgetEntry 1 1 "March" 2024) none).investments_change_percent = 0 :=
  ((mom_percent_zero_policy [zeroBudgetEntry 1 1 "March" 2024] 1 2024 "March"
      (comparisons (zeroBudgetEntry 1 1 "March" 2024) none) rfl).2
    "February" 2024 rfl).1 rfl

/-! ## C9: largest expense category -/

/-- Python `max(lst, key=...)` over a nonempty list returns an element of
the list, its key is maximal, and it is the first element of the list
attaining that key (later elements replace the running maximum only on a
strictly greater key). -/
lemma pymax_spec (x : String × ℚ) (xs : List (String × ℚ)) :
    pymax_by_snd x xs ∈ x :: xs ∧
    (∀ c ∈ x :: xs, c.2 ≤ (pymax_by_snd x xs).2) ∧
    (x :: xs).find? (fun c => decide (c.2 = (pymax_by_snd x xs).2))
      = some (pymax_by_snd x xs) := by
  induction xs generalizing x with
  | nil =>
    refine ⟨List.mem_cons_self _ _, ?_, ?_⟩
    · intro c hc
      rcases List.mem_cons.mp hc with hh | hh
      · exact hh ▸ le_refl _
      · simp at hh
    · exact List.find?_cons_of_pos _ (by simp [pymax_by_snd])
  | cons y ys ih =>
    by_cases hgt : y.2 > x.2
    · have hstep : pymax_by_snd x (y :: ys) = pymax_by_snd y ys := by
        simp only [pymax_by_snd, List.foldl_cons]
        rw [if_pos hgt]
      obtain ⟨ihmem, ihmax, ihfind⟩ := ih y
      have hymax : y.2 ≤ (pymax_by_snd y ys).2 :=
        ihmax y (List.mem_cons_self _ _)
      refine ⟨?_, ?_, ?_⟩
      · rw [hstep]
        rcases List.mem_cons.mp ihmem with hh | hh
        · rw [hh]; exact List.mem_cons_of_mem _ (List.mem_cons_self _ _)
        · exact List.mem_cons_of_mem _ (List.mem_cons_of_mem _ hh)
      · intro c hc
        rw [hstep]
        rcases List.mem_cons.mp hc with hh | hh
        · exact hh ▸ le_trans (le_of_lt hgt) hymax
        · rcases List.mem_cons.mp hh with hh2 | hh2
          · exact hh2 ▸ hymax
          · exact ihmax c (List.mem_cons_of_mem _ hh2)
      · rw [hstep]
        have hxne : ¬ (x.2 = (pymax_by_snd y ys).2) :=
          ne_of_lt (lt_of_lt_of_le hgt hymax)
        rw [List.find?_cons_of_neg _ (by simpa using hxne)]
        exact ihfind
    · have hyx : y.2 ≤ x.2 := le_of_not_lt hgt
      have hstep : pymax_by_snd x (y :: ys) = pymax_by_snd x ys := by
        simp only [pymax_by_snd, List.foldl_cons]
        rw [if_neg hgt]
      obtain ⟨ihmem, ihmax, ihfind⟩ := ih x
      have hxmax : x.2 ≤ (pymax_by_snd x ys).2 :=
        ihmax x (List.mem_cons_self _ _)
      refine ⟨?_, ?_, ?_⟩
      · rw [hstep]
        rcases List.mem_cons.mp ihmem with hh | hh
        · rw [hh]; exact List.mem_cons_self _ _
        · exact List.mem_cons_of_mem _ (List.mem_cons_of_mem _ hh)
      · intro c hc
        rw [hstep]
        rcases List.mem_cons.mp hc with hh | hh
        · exact hh ▸ hxmax
        · rcases List.mem_cons.mp hh with hh2 | hh2
          · exact hh2 ▸ le_trans hyx hxmax
          · exact ihmax c (List.mem_cons_of_mem _ hh2)
      · rw [hstep]
        by_cases hx2 : x.2 = (pymax_by_snd x ys).2
        · have hxr : pymax_by_snd x ys = x := by
            rw [List.find?_cons_of_pos _ (by simpa using hx2)] at ihfind
            exact (Option.some.inj ihfind).symm
          rw [List.find?_cons_of_pos _ (by simpa using hx2), hxr]
        · have hy2 : ¬ (y.2 = (pymax_by_snd x ys).2) := by
            intro heq
            exact hx2 (le_antisymm hxmax (heq ▸ hyx))
          rw [List.find?_cons_of_neg _ (by simpa using hx2)]
          rw [List.find?_cons_of_neg _ (by simpa using hy2)]
          rw [List.find?_cons_of_neg _ (by simpa using hx2)] at ihfind
          exact ihfind

/-- C9: `largest_expense_category` returns a candidate from the fixed
ordering (Rent, Food, EMI-sum, credit-card-sum, Shopping, Travel,
Other), its value is maximal among all seven candidates, and it is the
first candidate in that ordering attaining the maximal value (ties
resolve to the earliest). -/
theorem largest_expense_first_max (e : BudgetEntry) :
    largest_expense_category e ∈ expense_candidates e ∧
    (∀ c ∈ expense_candidates e, c.2 ≤ (largest_expense_category e).2) ∧
    (expense_candidates e).find?
        (fun c => decide (c.2 = (largest_expense_category e).2))
      = some (largest_expense_category e) :=
  pymax_spec ("Rent", e.rent) ((expense_candidates e).drop 1)

/-- Witness for C9: on the all-zero entry all seven candidates tie at 0
and the analytic returns the first of them, ("Rent", 0). -/
theorem largest_expense_first_max_witness :
    largest_expense_category (zeroBudgetEntry 2 1 "March" 2024)
        ∈ expense_candidates (zeroBudgetEntry 2 1 "March" 2024) ∧
    largest_expense_category (zeroBudgetEntry 2 1 "March" 2024) = ("Rent", 0) :=
  ⟨(largest_expense_first_max (zeroBudgetEntry 2 1 "March" 2024)).1,
   by norm_num [largest_expense_category, pymax_by_snd, expense_candidates,
     zeroBudgetEntry]⟩

/-! ## C6: yearly rollup shape -/

/-- Projecting the month names out of the per-month data points gives
exactly the calendar months whose lookup succeeds. -/
lemma filterMap_pair_fst (f : String → Option BudgetEntry) (l : List String) :
    (l.filterMap (fun m => (f m).map (fun e => (m, e)))).map Prod.fst
      = l.filter (fun m => (f m).isSome) := by
  induction l with
  | nil => rfl
  | cons a l ih => cases hfa : f a <;> simp [List.filterMap_cons, hfa, ih]

lemma entries_by_month_isSome (entries : List BudgetEntry) (m : String) :
    (entries_by_month entries m).isSome ↔ ∃ e ∈ entries, e.month = m := by
  unfold entries_by_month
  rw [List.find?_isSome]
  simp [List.mem_reverse]

lemma month_order_nodup : month_order.Nodup := by decide

/-- C6: the yearly rollup emits one data point per calendar month that
has a stored row for this user and year (a month without a row is
omitted — its name never appears), with no duplicated months; the four
monthly series have exactly one value per emitted month;
`months_with_data` equals the number of emitted months; and every
per-month average is the corresponding year sum divided by
`max months_with_data 1`. -/
theorem yearly_rollup_correct (all_entries : List BudgetEntry) (uid : Nat)
    (year : Int) (yd : YearlyData)
    (hyd : get_yearly_chart_data all_entries uid year = yd) :
    (∀ m, m ∈ yd.months ↔ m ∈ month_order ∧
        ∃ e ∈ all_entries, e.user_id = uid ∧ e.year = year ∧ e.month = m) ∧
    yd.months.Nodup ∧
    yd.income.length = yd.months.length ∧
    yd.expenses.length = yd.months.length ∧
    yd.investments.length = yd.months.length ∧
    yd.balance.length = yd.months.length ∧
    yd.months_with_data = yd.months.length ∧
    yd.average_monthly_income
      = yd.total_income_sum / (max yd.months_with_data 1 : ℚ) ∧
    yd.average_monthly_expenses
      = yd.total_expenses_sum / (max yd.months_with_data 1 : ℚ) ∧
    yd.average_monthly_investments
      = yd.total_investments_sum / (max yd.months_with_data 1 : ℚ) ∧
    yd.average_monthly_balance
      = yd.total_balance_sum / (max yd.months_with_data 1 : ℚ) := by
  subst hyd
  unfold get_yearly_chart_data
  dsimp only
  refine ⟨?_, ?_, ?_, ?_, ?_, ?_, ?_, ?_, ?_, ?_, ?_⟩
  · intro m
    rw [filterMap_pair_fst, List.mem_filter]
    constructor
    · rintro ⟨hmo, hex⟩
      obtain ⟨e, he, hem⟩ := (entries_by_month_isSome _ _).mp hex
      have hfe := List.mem_filter.mp he
      have h2 := hfe.2
      simp only [Bool.and_eq_true, beq_iff_eq] at h2
      exact ⟨hmo, e, hfe.1, h2.1, h2.2, hem⟩
    · rintro ⟨hmo, e, he, hu, hy, hm⟩
      refine ⟨hmo, (entries_by_month_isSome _ _).mpr
        ⟨e, List.mem_filter.mpr ⟨he, ?_⟩, hm⟩⟩
      simp [hu, hy]
  · rw [filterMap_pair_fst]
    exact month_order_nodup.filter _
  · simp
  · simp
  · simp
  · simp
  · rfl
  · simp
  · simp
  · simp
  · simp

/-- Witness for C6 at the documented example: entries only for January
and March of 2024 give exactly the two month names (February omitted)
and `months_with_data` agrees with the emitted month count, 2. -/
theorem yearly_rollup_correct_witness :
    ("February" ∉ (get_yearly_chart_data
        [zeroBudgetEntry 1 1 "January" 2024, zeroBudgetEntry 2 1 "March" 2024]
        1 2024).months) ∧
    (get_yearly_chart_data
        [zeroBudgetEntry 1 1 "January" 2024, zeroBudgetEntry 2 1 "March" 2024]
        1 2024).months = ["January", "March"] ∧
    (get_yearly_chart_data
        [zeroBudgetEntry 1 1 "January" 2024, zeroBudgetEntry 2 1 "March" 2024]
        1 2024).months_with_data = 2 :=
  ⟨fun h => absurd
      (((yearly_rollup_correct
          [zeroBudgetEntry 1 1 "January" 2024, zeroBudgetEntry 2 1 "March" 2024]
          1 2024 _ rfl).1 "February").mp h).2
      (by decide),
   rfl, rfl⟩

/-! ## C7: duplicate-period save needs confirmation -/

/-- C7: when a BudgetEntry already exists for the authenticated user and
the current period, `save_budget` without the literal confirmation value
"yes" returns the stored rows unchanged (nothing created, modified or
deleted) together with the warning re-render carrying the conflicting
existing record, the user's entries, and every submitted field value;
with confirmation it overwrites the existing row in place and redirects. -/
theorem save_budget_two_phase (entries : List BudgetEntry) (uid : Nat)
    (m : String) (y : Int) (f : BudgetForm) (confirm : String) (nid : Nat)
    (ex : BudgetEntry)
    (hex : entries.find? (fun e =>
        e.user_id == uid && e.month == m && e.year == y) = some ex) :
    (confirm ≠ "yes" →
      save_budget entries uid m y f confirm nid =
        (SaveResponse.conflictForm ex
          (entries.filter (fun e => e.user_id == uid)) f, entries)) ∧
    (confirm = "yes" →
      save_budget entries uid m y f confirm nid =
        (SaveResponse.redirectBudget,
          entries.map (fun e => if e.id == ex.id then applyForm e f else e))) := by
  unfold save_budget
  rw [hex]
  dsimp only
  constructor
  · intro hc
    rw [if_pos hc]
  · intro hc
    rw [if_neg (by simp [hc])]

/-- Witness for C7: one stored March-2024 row, a save for March 2024
without confirmation — the stored rows come back unchanged and the
response is the warning form carrying the existing row and the submitted
values. -/
theorem save_budget_two_phase_witness :
    save_budget [zeroBudgetEntry 1 1 "March" 2024] 1 "March" 2024
        ⟨0, 0, 0, 0, 0, 0, 0, 0, 0, 0, 0, 0, 0, 0, 0, 0, 0, 0, 0, 0⟩ "" 5 =
      (SaveResponse.conflictForm (zeroBudgetEntry 1 1 "March" 2024)
        [zeroBudgetEntry 1 1 "March" 2024]
        ⟨0, 0, 0, 0, 0, 0, 0, 0, 0, 0, 0, 0, 0, 0, 0, 0, 0, 0, 0, 0⟩,
       [zeroBudgetEntry 1 1 "March" 2024]) :=
  (save_budget_two_phase [zeroBudgetEntry 1 1 "March" 2024] 1 "March" 2024
      ⟨0, 0, 0, 0, 0, 0, 0, 0, 0, 0, 0, 0, 0, 0, 0, 0, 0, 0, 0, 0⟩ "" 5
      (zeroBudgetEntry 1 1 "March" 2024) rfl).1 (by decide)

/-! ## C2: finalize on a period with no pre-existing BudgetEntry -/

/-- C2: evaluating `finalize_variable_budget` at a state holding a single
draft variable row (user 1, March 2024, category "food", amount 300) and
no BudgetEntry for that period aborts with an error instead of folding
the sum into a created entry: the freshly constructed ORM object's
`food` attribute is `None` until INSERT-time column defaults run, so
`budget_entry.food += total` (src/main.py line 1080) raises `TypeError`
and the request fails with nothing committed. -/
theorem finalize_fresh_entry_type_error :
    finalize_variable_budget
      { budgets := [],
        variable_budget_entries :=
          [{ id := 1, user_id := 1, month := "March", year := 2024,
             category := "food", amount := 300, is_finalized := 0 }] }
      1 "March" 2024 7 = Except.error () := rfl

end BudgetPlanner
